import Mathlib

/-
  Verification development for the ArdhiChain land-registry client.

  Shallow embedding of the service layer:
  - src/src/services/ipfs.ts          (ContentMigrator)
  - src/src/services/ipfs/IPFSServiceFactory.ts
  - src/src/services/algorand.ts      (AlgorandService)
  - src/src/components/PublicVerification.tsx (structural validation and
    ownership resolution inside handleSearch)

  JavaScript strings are modelled as Lean String, JS exceptions as
  Except with the error payload carrying the message (and, where the code
  inspects it, the error name), and the nondeterminism of the network as
  explicit oracle parameters: each model takes the outcomes of its
  underlying network calls as arguments and computes exactly what the
  source computes from them.
-/

set_option maxRecDepth 10000

namespace ArdhiChain

/-! ## String helpers (models of the JS string operations the code uses) -/

/-- Model of JS `String.prototype.startsWith` on character lists:
the second list is a leading segment of the first. -/
def startsWithL : List Char → List Char → Bool
  | _, [] => true
  | [], _ :: _ => false
  | c :: cs, p :: ps => c == p && startsWithL cs ps

/-- Model of JS `String.prototype.includes` on character lists:
the pattern occurs contiguously somewhere in the list. -/
def containsL : List Char → List Char → Bool
  | [], p => p.isEmpty
  | s@(_ :: cs), p => startsWithL s p || containsL cs p

/-- JS `s.includes(pat)`. -/
def strContains (s pat : String) : Bool :=
  containsL s.toList pat.toList

/-- JS `s.startsWith(pat)`. -/
def strStartsWith (s pat : String) : Bool :=
  startsWithL s.toList pat.toList

/-- JS `s.toLowerCase()` (the code only ever lowercases ASCII messages). -/
def strToLower (s : String) : String :=
  String.mk (s.toList.map Char.toLower)

/-- Model of JS `s.replace(pat, '')` with a plain-string pattern:
removes the first occurrence of `pat`, if any. -/
def replaceFirstL : List Char → List Char → List Char
  | [], _ => []
  | s@(c :: cs), p => if startsWithL s p then s.drop p.length else c :: replaceFirstL cs p

/-- JS `s.replace('ipfs://', '')` as used throughout `createTitle`. -/
def stripIpfsScheme (s : String) : String :=
  String.mk (replaceFirstL s.toList "ipfs://".toList)

/-- Model of the JS regex capture `msg.match(/<pat>(\d+)/)?.[1]`: the digit
run after the first occurrence of `pat` that is followed by at least one
digit. -/
def digitsAfter : List Char → List Char → Option String
  | [], _ => none
  | s@(_ :: cs), p =>
    if startsWithL s p then
      let ds := (s.drop p.length).takeWhile Char.isDigit
      if ds.isEmpty then digitsAfter cs p else some (String.mk ds)
    else digitsAfter cs p

/-! ## Content Migrator (src/src/services/ipfs.ts) -/

/-- `MigrationResult` from src/src/services/ipfs/IPFSProvider.ts. -/
structure MigrationResult where
  success : Bool
  originalCid : String
  newCid : String
  error : Option String := none
deriving DecidableEq

/-- `MigrationReport` from src/src/services/ipfs.ts (lines 84-92); the
wall-clock fields `startTime`, `endTime` and `duration` are real-time data
and are not part of the functional model. -/
structure MigrationReport where
  totalItems : Nat
  successCount : Nat
  failureCount : Nat
  results : List MigrationResult
deriving DecidableEq

/-- The response of the `axios.get` in `migrateSingleAsset` (lines 159-162):
a content-type header (possibly absent) and the body text. -/
structure FetchResponse where
  contentType : Option String
  bodyText : String

/-- Oracle for the network interactions of a single `migrateSingleAsset`
call: the outcome of the source-gateway fetch, of `JSON.parse` on the body,
and of the two possible target uploads.  Errors are the JS exception
messages. -/
structure MigrateEnv where
  fetchResult : Except String FetchResponse
  parseJson : String → Except String Unit
  uploadJSONResult : Except String String
  uploadFileResult : Except String String

namespace ContentMigrator

/-- The body of the `try` block of `ContentMigrator.migrateSingleAsset`
(src/src/services/ipfs.ts lines 156-185): fetch from the source gateway,
then re-upload as JSON when the content type includes `application/json`
(parsing first), otherwise as a file. -/
def migrateBody (env : MigrateEnv) : Except String String := do
  let resp ← env.fetchResult
  match resp.contentType with
  | some ct =>
    if strContains ct "application/json" then do
      let _ ← env.parseJson resp.bodyText
      env.uploadJSONResult
    else
      env.uploadFileResult
  | none => env.uploadFileResult

/-- `ContentMigrator.migrateSingleAsset` (src/src/services/ipfs.ts lines
155-195).  The whole body is wrapped in try/catch, so the function is total:
every exception is converted into a failed `MigrationResult`. -/
def migrateSingleAsset (env : MigrateEnv) (cid : String) : MigrationResult :=
  match migrateBody env with
  | .ok newCid => { success := true, originalCid := cid, newCid := newCid, error := none }
  | .error e => { success := false, originalCid := cid, newCid := "", error := some e }

/-- JS `Map.prototype.set` on the insertion-ordered association list that
models `cidMappings`: overwrite in place when the key exists, append
otherwise. -/
def mapSet : List (String × String) → String → String → List (String × String)
  | [], k, v => [(k, v)]
  | (k0, v0) :: rest, k, v =>
    if k0 == k then (k0, v) :: rest else (k0, v0) :: mapSet rest k v

/-- The `for (const cid of cids)` loop of `ContentMigrator.migrateAllContent`
(src/src/services/ipfs.ts lines 122-146), with the network state of the
i-th `migrateSingleAsset` call given by the oracle `envs` (each call sees a
fresh network state).  `migrateSingleAsset` is total (every exception path
inside it is caught, see `C5_migrateSingleAsset_never_throws`), and the
only other awaited call in the loop body is the `delay`, which always
resolves, so the `catch` arm of the loop body is dead and the loop always
takes the `try` path: push the result, bump the matching counter, and
record the mapping on success. -/
def migrateAllLoop (envs : Nat → MigrateEnv) :
    Nat → List String → MigrationReport → List (String × String) →
    MigrationReport × List (String × String)
  | _, [], report, maps => (report, maps)
  | i, cid :: rest, report, maps =>
    let result := migrateSingleAsset (envs i) cid
    let report' : MigrationReport :=
      { report with
        results := report.results ++ [result]
        successCount := if result.success then report.successCount + 1 else report.successCount
        failureCount := if result.success then report.failureCount else report.failureCount + 1 }
    let maps' := if result.success then mapSet maps result.originalCid result.newCid else maps
    migrateAllLoop envs (i + 1) rest report' maps'

/-- `ContentMigrator.migrateAllContent` (src/src/services/ipfs.ts lines
111-153): initialises the report with `totalItems := cids.length` and runs
the loop, threading the migrator state `cidMappings`. -/
def migrateAllContent (envs : Nat → MigrateEnv) (cids : List String)
    (cidMappings : List (String × String)) :
    MigrationReport × List (String × String) :=
  migrateAllLoop envs 0 cids
    { totalItems := cids.length, successCount := 0, failureCount := 0, results := [] }
    cidMappings

/-- The expected per-item results of a migration run over `cids` whose i-th
network state is `envs i`: exactly one `migrateSingleAsset` result per
input identifier, in input order. -/
def resultsFrom (envs : Nat → MigrateEnv) : Nat → List String → List MigrationResult
  | _, [] => []
  | i, cid :: rest => migrateSingleAsset (envs i) cid :: resultsFrom envs (i + 1) rest

end ContentMigrator

/-! ## Provider Factory (src/src/services/ipfs/IPFSServiceFactory.ts) -/

/-- `IPFSProviderType` from src/src/services/ipfs/IPFSServiceFactory.ts. -/
inductive ProviderKind where
  | pinata
  | nodely
deriving DecidableEq

namespace IPFSServiceFactory

/-- The provider resolution of `IPFSServiceFactory.create` line 11:
`providerType || import.meta.env.VITE_IPFS_PROVIDER || 'pinata'`. -/
def resolveKind (requested envDefault : Option ProviderKind) : ProviderKind :=
  requested.getD (envDefault.getD .pinata)

/-- The `switch` of the `try` block (lines 14-20): the requested backend,
with `pinata` as the default arm. -/
def requestedCtor (π : Type) (k : ProviderKind) (pinataCtor nodelyCtor : Except String π) :
    Except String π :=
  match k with
  | .nodely => nodelyCtor
  | .pinata => pinataCtor

/-- The `catch` fallback (lines 24-30): the other backend. -/
def fallbackCtor (π : Type) (k : ProviderKind) (pinataCtor nodelyCtor : Except String π) :
    Except String π :=
  match k with
  | .nodely => pinataCtor
  | .pinata => nodelyCtor

/-- `IPFSServiceFactory.create` (src/src/services/ipfs/IPFSServiceFactory.ts
lines 10-32), over abstract constructor outcomes: `pinataCtor` and
`nodelyCtor` are the results of `new PinataProvider()` and
`new NodelyProvider()` (which may throw, e.g. on a missing API key).  The
`try` runs the requested construction; the `catch` runs the other
construction outside any try/catch, so its exception propagates. -/
def create (π : Type) (requested envDefault : Option ProviderKind)
    (pinataCtor nodelyCtor : Except String π) : Except String π :=
  let provider := resolveKind requested envDefault
  match requestedCtor π provider pinataCtor nodelyCtor with
  | .ok p => .ok p
  | .error _ => fallbackCtor π provider pinataCtor nodelyCtor

end IPFSServiceFactory

/-! ## Verification / Ownership Resolver
(src/src/components/PublicVerification.tsx, handleSearch) -/

/-- The asset parameters `handleSearch` reads off the indexer response
(`assetInfo.params`); every field is optional because the indexer object is
untyped JS. -/
structure AssetPrms where
  name : Option String
  url : Option String
  decimals : Option Nat
  total : Option Nat
  unitName : Option String
deriving DecidableEq

namespace PublicVerification

/-- The regex `/^LR\/\d{4}\/\d+$/` of PublicVerification.tsx lines 49 and
64: the literal `LR/`, exactly four digits, `/`, then one or more digits. -/
def isLandIdFormat (s : String) : Bool :=
  match s.toList with
  | 'L' :: 'R' :: '/' :: y1 :: y2 :: y3 :: y4 :: '/' :: ds =>
    y1.isDigit && y2.isDigit && y3.isDigit && y4.isDigit && !ds.isEmpty && ds.all Char.isDigit
  | _ => false

/-- The `isLandTitle` conjunction of PublicVerification.tsx lines 47-58.
`url?.startsWith('ipfs://') || url?.length > 0` is false when the url is
absent (optional chaining yields `undefined`, which is falsy, and
`undefined > 0` is false). -/
def isLandTitle (p : AssetPrms) : Bool :=
  isLandIdFormat (p.name.getD "") &&
  (match p.url with
   | some u => strStartsWith u "ipfs://" || u.length > 0
   | none => false) &&
  p.decimals == some 0 &&
  p.total == some 1 &&
  (p.unitName == some "ARDHI" || p.unitName == none)

/-- The name-format issue string of line 65; an absent name renders as the
JS interpolation `undefined`. -/
def nameIssueMsg (name : Option String) : String :=
  "Invalid land ID format: \"" ++ (match name with | some s => s | none => "undefined") ++
  "\" (expected format: LR/YYYY/NNN)"

/-- The decimals issue string of line 73. -/
def decimalsIssueMsg (decimals : Option Nat) : String :=
  "Invalid decimals: " ++ (match decimals with | some n => toString n | none => "undefined") ++
  " (expected: 0 for NFT)"

/-- The total-supply issue string of line 77 (`${total?.toString()}`). -/
def totalIssueMsg (total : Option Nat) : String :=
  "Invalid total supply: " ++ (match total with | some n => toString n | none => "undefined") ++
  " (expected: 1 for NFT)"

/-- The `issues` array built by PublicVerification.tsx lines 62-78: each of
the four independent `if` blocks pushes its message when its check fails. -/
def collectIssues (p : AssetPrms) : List String :=
  (if !isLandIdFormat (p.name.getD "") then [nameIssueMsg p.name] else []) ++
  (if p.url.getD "" == "" then ["No metadata URL found"] else []) ++
  (if p.decimals != some 0 then [decimalsIssueMsg p.decimals] else []) ++
  (if p.total != some 1 then [totalIssueMsg p.total] else [])

/-- The structural-validation step of `handleSearch` (lines 46-82): `none`
when the asset passes `isLandTitle`, otherwise the multi-issue rejection
message of line 80. -/
def structuralValidation (p : AssetPrms) : Option String :=
  if isLandTitle p then none
  else
    some ("This asset does not appear to be a valid ArdhiChain land title. Issues found:\n" ++
      String.intercalate "\n" (collectIssues p))

/-- One element of the transaction history as `handleSearch` reads it:
`tx['tx-type']`, `tx['asset-transfer-transaction']?.['asset-id']`,
`tx['asset-transfer-transaction']?.receiver` and `tx['confirmed-round']`. -/
structure HistoryTxn where
  txType : String
  transferAssetId : Option Nat
  receiver : Option String
  confirmedRound : Nat
deriving DecidableEq

/-- The transfer filter of PublicVerification.tsx lines 92-95. -/
def isTransferFor (assetId : Nat) (tx : HistoryTxn) : Bool :=
  tx.txType == "axfer" && tx.transferAssetId == some assetId

/-- Stable insertion into a round-descending list; together with
`sortByRoundDesc` this models `transferTxns.sort((a, b) =>
b['confirmed-round'] - a['confirmed-round'])` (line 99): a stable sort into
descending confirmed-round order. -/
def insertByRoundDesc (t : HistoryTxn) : List HistoryTxn → List HistoryTxn
  | [] => [t]
  | u :: us =>
    if u.confirmedRound ≤ t.confirmedRound then t :: u :: us
    else u :: insertByRoundDesc t us

/-- See `insertByRoundDesc`. -/
def sortByRoundDesc : List HistoryTxn → List HistoryTxn
  | [] => []
  | t :: ts => insertByRoundDesc t (sortByRoundDesc ts)

/-- The owner-resolution block of `handleSearch` (PublicVerification.tsx
lines 84-105): default to the creator, filter the history down to transfer
transactions of this asset, sort descending by confirmed round, and take
the receiver of the first element; a missing or empty receiver (falsy in
`receiver || currentOwner`) leaves the creator. -/
def resolveCurrentOwner (creator : String) (assetId : Nat)
    (txns : List HistoryTxn) : String :=
  let transferTxns := txns.filter (isTransferFor assetId)
  match sortByRoundDesc transferTxns with
  | [] => creator
  | latest :: _ =>
    match latest.receiver with
    | some r => if r == "" then creator else r
    | none => creator

end PublicVerification

/-! ## Ledger Client (src/src/services/algorand.ts) -/

/-- A thrown JS error as the code inspects it: its `message` and (where
`getAssetTransactions` checks it) its `name`. -/
structure JsError where
  msg : String
  errName : String
deriving DecidableEq

namespace AlgorandService

/-- `AlgorandService.searchAssetsByUnitName` (algorand.ts lines 51-64),
over the outcome of the indexer query.  `response.assets || []` defaults an
absent field; the `catch` returns `[]`. -/
def searchAssetsByUnitName (α : Type) (underlying : Except JsError (Option (List α))) :
    Except JsError (List α) :=
  match underlying with
  | .ok assets => .ok (assets.getD [])
  | .error _ => .ok []

/-- `AlgorandService.getAccountAssets` (algorand.ts lines 104-136).  The
`catch` distinguishes the indexer 404 for an unused address from other
errors, but both arms return `[]`. -/
def getAccountAssets (α : Type) (underlying : Except JsError (Option (List α))) :
    Except JsError (List α) :=
  match underlying with
  | .ok assets => .ok (assets.getD [])
  | .error e =>
    if strContains e.msg "status 404" && strContains e.msg "no accounts found for address" then
      .ok []
    else
      .ok []

/-- `AlgorandService.getContractAssets` (algorand.ts lines 70-102): reads
the contract account through algod (for logging), then delegates to
`getAccountAssets`; its own `catch` returns `[]`. -/
def getContractAssets (α : Type) (accountInfo : Except JsError Unit)
    (underlying : Except JsError (Option (List α))) : Except JsError (List α) :=
  match accountInfo with
  | .error _ => .ok []
  | .ok _ =>
    match getAccountAssets α underlying with
    | .ok l => .ok l
    | .error _ => .ok []

/-- The connection-failure rethrow message of `getAssetTransactions`
(algorand.ts lines 237-239). -/
def indexerConnectMsg : String :=
  "Unable to connect to Algorand Indexer. Please check your internet connection and try again."

/-- `AlgorandService.getAssetTransactions` (algorand.ts lines 224-245).
The `catch` rethrows a connection error when the failure message includes
`Failed to fetch` or the error is a `TypeError`, and returns `[]`
otherwise. -/
def getAssetTransactions (α : Type) (underlying : Except JsError (Option (List α))) :
    Except JsError (List α) :=
  match underlying with
  | .ok txns => .ok (txns.getD [])
  | .error e =>
    if strContains e.msg "Failed to fetch" || e.errName == "TypeError" then
      .error { msg := indexerConnectMsg, errName := "Error" }
    else
      .ok []

/-- The retry loop of `AlgorandService.getAssetInfo` (algorand.ts lines
165-220), attempts numbered 1..3 (`maxRetries = 3`); `outcome i` is the
result of attempt `i` (the direct fetch plus the SDK lookup inside the
`try`).  A 404 before the final attempt continues the loop; any failure on
the final attempt is rethrown; any other failure waits and continues.
Fuel 0 is the fall-through after the loop: the `return null` of line 221,
modelled as `.ok none`. -/
def getAssetInfoLoop (α : Type) (outcome : Nat → Except JsError α) :
    Nat → Nat → Except JsError (Option α)
  | _, 0 => .ok none
  | attempt, fuel + 1 =>
    match outcome attempt with
    | .ok a => .ok (some a)
    | .error e =>
      if strContains e.msg "status 404" && attempt < 3 then
        getAssetInfoLoop α outcome (attempt + 1) fuel
      else if attempt == 3 then
        .error e
      else
        getAssetInfoLoop α outcome (attempt + 1) fuel

/-- `AlgorandService.getAssetInfo` (algorand.ts lines 138-222).  Lines
139-163 before the loop compute a `contractHoldsAsset` flag that is only
logged and never influences the result, so the model is the retry loop
started at attempt 1 with 3 attempts of fuel. -/
def getAssetInfo (α : Type) (outcome : Nat → Except JsError α) :
    Except JsError (Option α) :=
  getAssetInfoLoop α outcome 1 3

/-! ### createTitle (algorand.ts lines 377-796) -/

/-- The fee constants of the pre-flight balance check (lines 399-402). -/
def txnFee : Nat := 1000

/-- See `txnFee`. -/
def innerTxnFee : Nat := 1000

/-- See `txnFee`. -/
def maxFundingNeeded : Nat := 300000

/-- `minRequired = txnFee + innerTxnFee + maxFundingNeeded` (line 402). -/
def minRequired : Nat := txnFee + innerTxnFee + maxFundingNeeded

/-- The insufficient-funds message built at lines 405-410.  The JS
interpolation `${minRequired/1000000}` renders the number 0.302, written
here literally. -/
def insufficientFundsMsg (balance : Nat) : String :=
  "Insufficient funds: Account has " ++ toString balance ++
  " microAlgos, but at least " ++ toString minRequired ++ " microAlgos " ++
  "are required (" ++ toString txnFee ++ " for transaction fee, " ++
  toString innerTxnFee ++ " for inner transaction, " ++
  "and up to " ++ toString maxFundingNeeded ++ " for potential contract funding). " ++
  "Please fund your account with at least 0.302 Algos."

/-- A thrown error inside `createTitle`, as enriched at lines 746-753:
a message plus the fields the pending-verification path attaches. -/
structure CreateTitleError where
  msg : String
  status : Option String := none
  errAssetId : Option Nat := none
  errTxnId : Option String := none
deriving DecidableEq

/-- The pre-flight balance check of `createTitle` (lines 388-418):
read the account balance (the read may itself fail), throw the
insufficient-funds error when the balance is below `minRequired`, and in
the `catch` rethrow only errors whose message includes
`Insufficient funds` - any other failure (e.g. the balance read) is logged
and the protocol continues. -/
def preflightBalanceCheck (balanceRead : Except String Nat) :
    Except CreateTitleError Unit :=
  let tryBody : Except String Unit :=
    match balanceRead with
    | .error e => .error e
    | .ok balance =>
      if balance < minRequired then .error (insufficientFundsMsg balance) else .ok ()
  match tryBody with
  | .ok () => .ok ()
  | .error m =>
    if strContains m "Insufficient funds" then .error { msg := m } else .ok ()

/-- The messages of the outer error rewriter (lines 762-794). -/
def contractNeedsFundsMsg (currentBalance requiredMin : String) : String :=
  "The smart contract needs more funds to manage assets. " ++
  "Current balance: " ++ currentBalance ++ " microAlgos, " ++
  "Required: " ++ requiredMin ++ " microAlgos. " ++
  "Please try again - the contract will be funded automatically on the next attempt."

/-- See `contractNeedsFundsMsg`. -/
def walletInsufficientMsg : String :=
  "Insufficient funds: Your wallet does not have enough Algos to pay the transaction fee. " ++
  "To fund your wallet, you can use the Algorand TestNet Dispenser at " ++
  "https://bank.testnet.algorand.network/ " ++
  "or request funds from the Algorand TestNet Discord."

/-- See `contractNeedsFundsMsg`. -/
def txnPoolRejectMsg : String :=
  "Transaction rejected by the network. This could be due to insufficient funds or other issues. " ++
  "Please ensure all accounts have sufficient balance and try again."

/-- See `contractNeedsFundsMsg`. -/
def networkIssueMsg : String :=
  "Network issue encountered while creating title. If you received an asset ID, you can verify the " ++
  "status manually at: https://testnet.algoexplorer.io/ \n" ++
  "Please check your connection and try again if needed."

/-- The message-rewriting cascade of the outer `catch` of `createTitle`
(lines 755-794): pattern-matching on substrings of the caught message
(`errorMsg` is the lowercased message; the contract-funds branch extracts
the numbers with `/balance (\d+)/` and `/below min (\d+)/`). -/
def rewriteCreateTitleMsg (m : String) : String :=
  let errorMsg := strToLower m
  if strContains errorMsg "balance" && strContains errorMsg "below min" then
    let currentBalance := (digitsAfter errorMsg.toList "balance ".toList).getD "unknown"
    let requiredMin := (digitsAfter errorMsg.toList "below min ".toList).getD "unknown"
    contractNeedsFundsMsg currentBalance requiredMin
  else if strContains m "overspend" || strContains m "Insufficient funds" then
    walletInsufficientMsg
  else if strContains m "TransactionPool.Remember" then
    txnPoolRejectMsg
  else if strContains m "timeout" || strContains m "network" || strContains m "failed to fetch" then
    networkIssueMsg
  else
    "Failed to create title: " ++ m

/-- The outer `catch` of `createTitle` always throws a freshly constructed
`new Error(...)`, so whatever structured fields the caught error carried
(`assetId`, `status`, ...) are dropped and only the rewritten message
survives. -/
def rewriteCreateTitleError (e : CreateTitleError) : CreateTitleError :=
  { msg := rewriteCreateTitleMsg e.msg }

/-- The asset parameters compared by the post-creation verification
(lines 700-718): `params.name` and `params.url`. -/
structure VerifyPrms where
  name : Option String
  url : Option String
deriving DecidableEq

/-- The verification retry loop of `createTitle` (lines 697-732), attempts
indexed from 0 with `maxRetries = 3` of fuel: `lookup i = some p` is a
successful indexer lookup on attempt `i`, `none` a lookup that threw.  The
loop returns successfully at the first attempt whose parameters match the
expected name and url; non-matching parameters and lookup failures both
wait and retry. -/
def verifyLoop (lookup : Nat → Option VerifyPrms) (landId expectedUrl : String) :
    Nat → Nat → Bool
  | _, 0 => false
  | i, fuel + 1 =>
    match lookup i with
    | some p =>
      if p.name == some landId && p.url == some expectedUrl then true
      else verifyLoop lookup landId expectedUrl (i + 1) fuel
    | none => verifyLoop lookup landId expectedUrl (i + 1) fuel

/-- The pending-verification warning message built at lines 738-742. -/
def pendingVerificationMsg (assetId : Nat) (txId : String) : String :=
  "Asset was created but verification is pending. " ++
  "It may take a few seconds to appear in the indexer.\n" ++
  "Asset ID: " ++ toString assetId ++ "\n" ++
  "Check the transaction: https://testnet.algoexplorer.io/tx/" ++ txId ++ "\n" ++
  "Check the asset: https://testnet.algoexplorer.io/asset/" ++ toString assetId

/-- The post-creation verification tail of `createTitle` (lines 693-754):
return the asset id when the verification loop converges, otherwise throw
the enriched pending-verification error (lines 746-754 attach `assetId`,
`txnId` and `status = PENDING_VERIFICATION` to the thrown error). -/
def postCreateVerification (lookup : Nat → Option VerifyPrms)
    (landId metadataUrl txId : String) (assetId : Nat) :
    Except CreateTitleError Nat :=
  if verifyLoop lookup landId (stripIpfsScheme metadataUrl) 0 3 then
    .ok assetId
  else
    .error { msg := pendingVerificationMsg assetId txId,
             status := some "PENDING_VERIFICATION",
             errAssetId := some assetId,
             errTxnId := some txId }

/-- Observable ledger-write actions of the protocol, used to state that the
pre-flight failure happens before anything is built or submitted. -/
inductive CreateTitleAction where
  | buildTransaction
  | submitTransaction
deriving DecidableEq

/-- The middle of the create-title protocol (lines 420-691: suggested
params, contract funding, admin check, build, sign, submit, confirm,
inner-transaction extraction), abstracted as an oracle: its outcome (the
extracted asset id, or a thrown message), the confirmed transaction id
`result.txIDs[0]`, and the ledger actions it performed. -/
structure MidProtocol where
  outcome : Except String Nat
  txId : String
  actions : List CreateTitleAction

/-- `AlgorandService.createTitle` (algorand.ts lines 377-796) as a state
function from the pre-flight balance read, the abstracted middle protocol
and the verification lookups to the result and the list of performed
ledger actions.  The middle protocol is only consulted after the
pre-flight check passes (the throw at line 405 aborts before line 421),
and every error path goes through the outer `catch` rewriter. -/
def createTitle (balanceRead : Except String Nat) (mid : MidProtocol)
    (lookup : Nat → Option VerifyPrms) (landId metadataUrl : String) :
    Except CreateTitleError Nat × List CreateTitleAction :=
  match preflightBalanceCheck balanceRead with
  | .error e => (.error (rewriteCreateTitleError e), [])
  | .ok () =>
    match mid.outcome with
    | .error m => (.error (rewriteCreateTitleError { msg := m }), mid.actions)
    | .ok assetId =>
      match postCreateVerification lookup landId metadataUrl mid.txId assetId with
      | .ok i => (.ok i, mid.actions)
      | .error e => (.error (rewriteCreateTitleError e), mid.actions)

end AlgorandService

/-! ## Reference/aliasing model for the cidMappings copy
(src/src/services/ipfs.ts lines 104, 232-234) -/

/-- A heap of JS `Map` objects: a reference is an index into the store,
the contents an insertion-ordered association list. -/
abbrev CidStore := List (List (String × String))

namespace ContentMigrator

/-- Dereference a map reference (reading a dangling reference yields the
empty map; the theorems only read live references). -/
def storeRead (st : CidStore) (r : Nat) : List (String × String) :=
  (st[r]?).getD []

/-- `new Map(contents)`: allocate a fresh map object. -/
def storeAlloc (st : CidStore) (contents : List (String × String)) : CidStore × Nat :=
  (st ++ [contents], st.length)

/-- An in-place mutation of the map object behind reference `r`
(e.g. `map.set`, `map.delete`, `map.clear` by the caller). -/
def storeWrite (st : CidStore) (r : Nat) (contents : List (String × String)) : CidStore :=
  st.set r contents

/-- `ContentMigrator.getCidMappings` (src/src/services/ipfs.ts lines
232-234): `return new Map(this.cidMappings)` - allocate a fresh map holding
a copy of the contents of the internal `cidMappings` object and return a
reference to it. -/
def getCidMappings (st : CidStore) (internalRef : Nat) : CidStore × Nat :=
  storeAlloc st (storeRead st internalRef)

end ContentMigrator

/-!
# Theorems
-/

/-! ## Claim C4: migrateAllContent accounting -/

namespace ContentMigrator

theorem resultsFrom_length (envs : Nat → MigrateEnv) :
    ∀ (i : Nat) (cids : List String), (resultsFrom envs i cids).length = cids.length := by
  intro i cids
  induction cids generalizing i with
  | nil => rfl
  | cons c rest ih => simp [resultsFrom, ih]

theorem migrateSingleAsset_originalCid (env : MigrateEnv) (cid : String) :
    (migrateSingleAsset env cid).originalCid = cid := by
  unfold migrateSingleAsset
  cases migrateBody env <;> rfl

theorem resultsFrom_map_originalCid (envs : Nat → MigrateEnv) :
    ∀ (i : Nat) (cids : List String),
      (resultsFrom envs i cids).map (fun r => r.originalCid) = cids := by
  intro i cids
  induction cids generalizing i with
  | nil => rfl
  | cons c rest ih => simp [resultsFrom, migrateSingleAsset_originalCid, ih]

theorem length_filter_add_length_filter_not {α : Type} (l : List α) (p : α → Bool) :
    (l.filter p).length + (l.filter (fun a => !p a)).length = l.length := by
  induction l with
  | nil => rfl
  | cons x xs ih => cases hx : p x <;> simp [List.filter, hx, ← ih] <;> omega

theorem migrateAllLoop_eq (envs : Nat → MigrateEnv) :
    ∀ (cids : List String) (i : Nat) (report : MigrationReport)
      (maps : List (String × String)),
    (migrateAllLoop envs i cids report maps).1 =
      { totalItems := report.totalItems,
        successCount :=
          report.successCount + ((resultsFrom envs i cids).filter (fun r => r.success)).length,
        failureCount :=
          report.failureCount + ((resultsFrom envs i cids).filter (fun r => !r.success)).length,
        results := report.results ++ resultsFrom envs i cids } := by
  intro cids
  induction cids with
  | nil => intro i report maps; simp [migrateAllLoop, resultsFrom]
  | cons c rest ih =>
    intro i report maps
    rw [migrateAllLoop, ih]
    cases hs : (migrateSingleAsset (envs i) c).success <;>
      simp [resultsFrom, List.filter, hs, Nat.add_assoc, Nat.add_comm 1]

/-- Claim C4: for every input list of content identifiers,
`migrateAllContent` produces a report whose `totalItems` is the input
length, whose `successCount` and `failureCount` add up to it, and whose
`results` list has exactly one entry per input identifier, in input order
(its `originalCid` projection is the input list itself) - so a failing
item never aborts the run. -/
theorem C4_migrateAllContent_report (envs : Nat → MigrateEnv) (cids : List String)
    (maps : List (String × String)) :
    (migrateAllContent envs cids maps).1.totalItems = cids.length ∧
    (migrateAllContent envs cids maps).1.successCount +
      (migrateAllContent envs cids maps).1.failureCount = cids.length ∧
    (migrateAllContent envs cids maps).1.results = resultsFrom envs 0 cids ∧
    (migrateAllContent envs cids maps).1.results.map (fun r => r.originalCid) = cids := by
  have h := migrateAllLoop_eq envs cids 0
    { totalItems := cids.length, successCount := 0, failureCount := 0, results := [] } maps
  unfold migrateAllContent
  rw [h]
  refine ⟨rfl, ?_, by simp, ?_⟩
  · simpa using
      (length_filter_add_length_filter_not (resultsFrom envs 0 cids) (fun r => r.success)).trans
        (resultsFrom_length envs 0 cids)
  · simpa using resultsFrom_map_originalCid envs 0 cids

/-! ## Claim C5: migrateSingleAsset always resolves to a result object -/

/-- Claim C5: for every content identifier and every combination of
underlying outcomes (fetch, parse and upload may each fail with any
exception), `migrateSingleAsset` resolves to a `MigrationResult`: either a
success record carrying the original identifier and the new one, or a
failure record with an empty `newCid` and the exception message.  It never
throws: the model is a total function into `MigrationResult` because every
exception path of the source is caught by the surrounding try/catch. -/
theorem C5_migrateSingleAsset_never_throws (env : MigrateEnv) (cid : String) :
    (∃ newCid, migrateSingleAsset env cid =
      { success := true, originalCid := cid, newCid := newCid, error := none }) ∨
    (∃ e, migrateSingleAsset env cid =
      { success := false, originalCid := cid, newCid := "", error := some e }) := by
  unfold migrateSingleAsset
  cases migrateBody env with
  | ok newCid => exact Or.inl ⟨newCid, rfl⟩
  | error e => exact Or.inr ⟨e, rfl⟩

/-! ## Claim C10: getCidMappings returns a fresh copy -/

theorem storeRead_alloc_old (st : CidStore) (contents : List (String × String))
    (r : Nat) (h : r < st.length) :
    storeRead (st ++ [contents]) r = storeRead st r := by
  unfold storeRead
  rw [List.getElem?_append_left h]

/-- Claim C10: `getCidMappings` allocates a fresh map object holding a copy
of the internal `cidMappings` contents.  The returned reference is distinct
from the internal one, the copy has the same contents, and an arbitrary
in-place mutation through the returned reference leaves the internal map -
and hence the state seen by subsequent `migrateAllContent` calls -
unchanged. -/
theorem C10_getCidMappings_fresh_copy (st : CidStore) (internalRef : Nat)
    (h : internalRef < st.length) (mutated : List (String × String)) :
    (getCidMappings st internalRef).2 ≠ internalRef ∧
    storeRead (getCidMappings st internalRef).1 (getCidMappings st internalRef).2 =
      storeRead st internalRef ∧
    storeRead (storeWrite (getCidMappings st internalRef).1
        (getCidMappings st internalRef).2 mutated) internalRef =
      storeRead st internalRef ∧
    (∀ (envs : Nat → MigrateEnv) (cids : List String),
      migrateAllContent envs cids
          (storeRead (storeWrite (getCidMappings st internalRef).1
            (getCidMappings st internalRef).2 mutated) internalRef) =
        migrateAllContent envs cids (storeRead st internalRef)) := by
  have hne : st.length ≠ internalRef := Nat.ne_of_gt h
  have hwrite :
      storeRead (storeWrite (st ++ [storeRead st internalRef]) st.length mutated) internalRef =
        storeRead st internalRef := by
    unfold storeRead storeWrite
    rw [List.getElem?_set_ne hne, List.getElem?_append_left h]
  refine ⟨hne, ?_, hwrite, ?_⟩
  · unfold getCidMappings storeAlloc storeRead
    simp
  · intro envs cids
    rw [show storeRead (storeWrite (getCidMappings st internalRef).1
          (getCidMappings st internalRef).2 mutated) internalRef =
        storeRead st internalRef from hwrite]

/-- Witness for C10 at a concrete store: one live internal map `[(a, b)]`
at reference 0; mutating the copy to `[(x, y)]` leaves the internal map
readable as `[(a, b)]`. -/
theorem C10_getCidMappings_fresh_copy_witness :
    (getCidMappings [[("a", "b")]] 0).2 ≠ 0 ∧
    storeRead (storeWrite (getCidMappings [[("a", "b")]] 0).1
        (getCidMappings [[("a", "b")]] 0).2 [("x", "y")]) 0 = [("a", "b")] := by
  have h := C10_getCidMappings_fresh_copy [[("a", "b")]] 0 (by decide) [("x", "y")]
  exact ⟨h.1, h.2.2.1.trans (by decide)⟩

end ContentMigrator

/-! ## Claim C6: provider factory fallback -/

namespace IPFSServiceFactory

/-- Claim C6: for every requested provider type (including the
environment-default resolution), if the requested construction succeeds its
provider is returned; if it throws, the factory falls back to constructing
the other backend; and only when both constructions fail does an exception
propagate - the second (fallback) construction's exception. -/
theorem C6_create_fallback (π : Type) (requested envDefault : Option ProviderKind)
    (pinataCtor nodelyCtor : Except String π) :
    (∀ p, requestedCtor π (resolveKind requested envDefault) pinataCtor nodelyCtor = .ok p →
      create π requested envDefault pinataCtor nodelyCtor = .ok p) ∧
    (∀ e p, requestedCtor π (resolveKind requested envDefault) pinataCtor nodelyCtor = .error e →
      fallbackCtor π (resolveKind requested envDefault) pinataCtor nodelyCtor = .ok p →
      create π requested envDefault pinataCtor nodelyCtor = .ok p) ∧
    (∀ e e', requestedCtor π (resolveKind requested envDefault) pinataCtor nodelyCtor = .error e →
      fallbackCtor π (resolveKind requested envDefault) pinataCtor nodelyCtor = .error e' →
      create π requested envDefault pinataCtor nodelyCtor = .error e') := by
  refine ⟨?_, ?_, ?_⟩
  · intro p hp
    simp only [create]
    rw [hp]
  · intro e p he hp
    simp only [create]
    rw [he, hp]
  · intro e e' he he'
    simp only [create]
    rw [he, he']

/-- Witness for C6: requesting the nodely backend when its constructor
throws (missing API key) falls back to the pinata construction. -/
theorem C6_create_fallback_witness :
    create String (some .nodely) none (.ok "pinata-provider")
        (.error "Nodely API key not configured") = .ok "pinata-provider" :=
  (C6_create_fallback String (some .nodely) none (.ok "pinata-provider")
      (.error "Nodely API key not configured")).2.1
    "Nodely API key not configured" "pinata-provider" rfl rfl

end IPFSServiceFactory

/-! ## Claim C7: ownership resolution -/

namespace PublicVerification

theorem mem_insertByRoundDesc {u t : HistoryTxn} :
    ∀ {l : List HistoryTxn}, u ∈ insertByRoundDesc t l ↔ u = t ∨ u ∈ l := by
  intro l
  induction l with
  | nil => simp [insertByRoundDesc]
  | cons x xs ih =>
    by_cases hc : x.confirmedRound ≤ t.confirmedRound
    · simp [insertByRoundDesc, hc]
    · simp only [insertByRoundDesc, if_neg hc, List.mem_cons, ih]
      tauto

theorem mem_sortByRoundDesc {u : HistoryTxn} :
    ∀ {l : List HistoryTxn}, u ∈ sortByRoundDesc l ↔ u ∈ l := by
  intro l
  induction l with
  | nil => simp [sortByRoundDesc]
  | cons x xs ih => simp [sortByRoundDesc, mem_insertByRoundDesc, ih]

theorem insertByRoundDesc_of_lt {t : HistoryTxn} {l : List HistoryTxn}
    (h : ∀ u ∈ l, u.confirmedRound < t.confirmedRound) :
    insertByRoundDesc t l = t :: l := by
  cases l with
  | nil => rfl
  | cons x xs =>
    have : x.confirmedRound ≤ t.confirmedRound :=
      Nat.le_of_lt (h x (List.mem_cons_self x xs))
    simp [insertByRoundDesc, this]

theorem sortByRoundDesc_head_of_strict_max :
    ∀ (l : List HistoryTxn) (t : HistoryTxn), t ∈ l →
      (∀ u ∈ l, u = t ∨ u.confirmedRound < t.confirmedRound) →
      ∃ rest, sortByRoundDesc l = t :: rest := by
  intro l
  induction l with
  | nil => intro t ht; exact absurd ht (List.not_mem_nil t)
  | cons x xs ih =>
    intro t ht hmax
    by_cases hx : t ∈ xs
    · obtain ⟨rest, hrest⟩ := ih t hx (fun u hu => hmax u (List.mem_cons_of_mem x hu))
      rcases hmax x (List.mem_cons_self x xs) with hxt | hlt
      · subst hxt
        refine ⟨x :: rest, ?_⟩
        simp [sortByRoundDesc, hrest, insertByRoundDesc]
      · refine ⟨insertByRoundDesc x rest, ?_⟩
        have hnle : ¬ t.confirmedRound ≤ x.confirmedRound := Nat.not_le_of_lt hlt
        simp [sortByRoundDesc, hrest, insertByRoundDesc, hnle]
    · have hteq : t = x := by
        rcases List.mem_cons.mp ht with h | h
        · exact h
        · exact absurd h hx
      subst hteq
      refine ⟨sortByRoundDesc xs, ?_⟩
      have hall : ∀ u ∈ sortByRoundDesc xs, u.confirmedRound < t.confirmedRound := by
        intro u hu
        have humem : u ∈ xs := mem_sortByRoundDesc.mp hu
        rcases hmax u (List.mem_cons_of_mem t humem) with h | h
        · exact absurd (h ▸ humem) hx
        · exact h
      simp [sortByRoundDesc, insertByRoundDesc_of_lt hall]

/-- Claim C7: ownership resolution defaults to the creator when the history
holds no transfer of the asset, and when one transfer has a strictly
greater confirmed round than every other transfer of the asset (e.g.
round 12 among rounds 5, 12, 8), the resolved owner is that transfer's
receiver, wherever it sits in the processing order. -/
theorem C7_resolveCurrentOwner_spec (creator : String) (assetId : Nat)
    (txns : List HistoryTxn) :
    (txns.filter (isTransferFor assetId) = [] →
      resolveCurrentOwner creator assetId txns = creator) ∧
    (∀ t r, t ∈ txns.filter (isTransferFor assetId) →
      (∀ u ∈ txns.filter (isTransferFor assetId),
        u = t ∨ u.confirmedRound < t.confirmedRound) →
      t.receiver = some r → r ≠ "" →
      resolveCurrentOwner creator assetId txns = r) := by
  constructor
  · intro hempty
    unfold resolveCurrentOwner
    rw [hempty]
    rfl
  · intro t r hmem hmax hrecv hr
    obtain ⟨rest, hsort⟩ :=
      sortByRoundDesc_head_of_strict_max (txns.filter (isTransferFor assetId)) t hmem hmax
    simp only [resolveCurrentOwner, hsort, hrecv]
    simp [beq_eq_false_iff_ne.mpr hr]

/-- Witness for C7: a history with transfers of asset 7 at rounds 5, 12
and 8 (in that processing order) resolves to the receiver of the round-12
transfer. -/
theorem C7_resolveCurrentOwner_witness :
    resolveCurrentOwner "CREATOR" 7
      [⟨"axfer", some 7, some "R5", 5⟩,
       ⟨"axfer", some 7, some "R12", 12⟩,
       ⟨"axfer", some 7, some "R8", 8⟩] = "R12" :=
  (C7_resolveCurrentOwner_spec "CREATOR" 7
      [⟨"axfer", some 7, some "R5", 5⟩,
       ⟨"axfer", some 7, some "R12", 12⟩,
       ⟨"axfer", some 7, some "R8", 8⟩]).2
    ⟨"axfer", some 7, some "R12", 12⟩ "R12" (by decide) (by decide) rfl (by decide)

/-! ## Claim C8: structural validation collects every failing check -/

/-- Claim C8: whenever one of the four structural checks fails (land-id
name format, metadata URL presence, zero decimals, total supply of one),
the asset is rejected with the multi-issue message, and the issues list
contains the message of every failing check - not only the first. -/
theorem C8_structuralValidation_collects (p : AssetPrms)
    (hfail : isLandIdFormat (p.name.getD "") = false ∨ p.url.getD "" = "" ∨
      p.decimals ≠ some 0 ∨ p.total ≠ some 1) :
    structuralValidation p =
      some ("This asset does not appear to be a valid ArdhiChain land title. Issues found:\n" ++
        String.intercalate "\n" (collectIssues p)) ∧
    (isLandIdFormat (p.name.getD "") = false → nameIssueMsg p.name ∈ collectIssues p) ∧
    (p.url.getD "" = "" → "No metadata URL found" ∈ collectIssues p) ∧
    (p.decimals ≠ some 0 → decimalsIssueMsg p.decimals ∈ collectIssues p) ∧
    (p.total ≠ some 1 → totalIssueMsg p.total ∈ collectIssues p) := by
  have hnotTitle : isLandTitle p = false := by
    unfold isLandTitle
    rcases hfail with h | h | h | h
    · simp [h]
    · have : (match p.url with
        | some u => strStartsWith u "ipfs://" || u.length > 0
        | none => false) = false := by
        cases hu : p.url with
        | none => rfl
        | some u =>
          have : u = "" := by simpa [hu] using h
          subst this
          decide
      simp [this]
    · simp [beq_eq_false_iff_ne.mpr h]
    · simp [beq_eq_false_iff_ne.mpr h]
  refine ⟨by simp [structuralValidation, hnotTitle], ?_, ?_, ?_, ?_⟩
  · intro h
    simp [collectIssues, h]
  · intro h
    simp [collectIssues, h]
  · intro h
    simp [collectIssues, bne_iff_ne, h]
  · intro h
    simp [collectIssues, bne_iff_ne, h]

/-- Witness for C8: an asset named `ABC123` with correct decimals, total,
url and unit name is rejected, and its issues list contains (indeed is
exactly) the name-format message. -/
theorem C8_structuralValidation_witness :
    structuralValidation ⟨some "ABC123", some "ipfs://cid", some 0, some 1, some "ARDHI"⟩ =
      some ("This asset does not appear to be a valid ArdhiChain land title. Issues found:\n" ++
        String.intercalate "\n"
          (collectIssues ⟨some "ABC123", some "ipfs://cid", some 0, some 1, some "ARDHI"⟩)) ∧
    nameIssueMsg (some "ABC123") ∈
      collectIssues ⟨some "ABC123", some "ipfs://cid", some 0, some 1, some "ARDHI"⟩ ∧
    collectIssues ⟨some "ABC123", some "ipfs://cid", some 0, some 1, some "ARDHI"⟩ =
      [nameIssueMsg (some "ABC123")] := by
  have h := C8_structuralValidation_collects
    ⟨some "ABC123", some "ipfs://cid", some 0, some 1, some "ARDHI"⟩ (Or.inl (by decide))
  exact ⟨h.1, h.2.1 (by decide), by decide⟩

end PublicVerification

/-! ## String append lemmas shared by the Ledger Client claims -/

theorem startsWithL_nil (l : List Char) : startsWithL l [] = true := by
  cases l <;> rfl

theorem startsWithL_append (a b p : List Char) (h : startsWithL a p = true) :
    startsWithL (a ++ b) p = true := by
  induction p generalizing a with
  | nil => exact startsWithL_nil _
  | cons q ps ih =>
    cases a with
    | nil => exact absurd h (by simp [startsWithL])
    | cons c cs =>
      simp only [startsWithL, Bool.and_eq_true] at h ⊢
      exact ⟨h.1, ih cs h.2⟩

theorem containsL_append_left (a b p : List Char) (h : containsL a p = true) :
    containsL (a ++ b) p = true := by
  induction a with
  | nil =>
    have hp : p = [] := by simpa [containsL, List.isEmpty_iff] using h
    subst hp
    cases b <;> simp [containsL, startsWithL]
  | cons c cs ih =>
    simp only [containsL, Bool.or_eq_true] at h
    rcases h with h | h
    · simp only [List.cons_append, containsL, Bool.or_eq_true]
      exact Or.inl (startsWithL_append _ _ _ h)
    · simp only [List.cons_append, containsL, Bool.or_eq_true]
      exact Or.inr (ih h)

theorem strContains_append_left (s t p : String) (h : strContains s p = true) :
    strContains (s ++ t) p = true := by
  simp only [strContains, String.toList] at h ⊢
  rw [String.data_append]
  exact containsL_append_left _ _ _ h

/-! ## Claim C1: pre-flight balance check -/

namespace AlgorandService

theorem insufficientFundsMsg_contains (balance : Nat) :
    strContains (insufficientFundsMsg balance) "Insufficient funds" = true := by
  unfold insufficientFundsMsg
  repeat apply strContains_append_left
  decide

theorem preflight_insufficient (balance : Nat) (h : balance < minRequired) :
    preflightBalanceCheck (.ok balance) = .error { msg := insufficientFundsMsg balance } := by
  unfold preflightBalanceCheck
  simp [h, insufficientFundsMsg_contains balance]

/-- Claim C1 (corrected): for every balance below the 302000-microAlgo
minimum, `createTitle` fails before any transaction is built or submitted
(the middle protocol is never consulted, the action list is empty).  The
error raised by the pre-flight check does state the balance and the
minimum, but the outer catch rewraps every insufficient-funds error, so
the error that propagates is the generic wallet-funding guidance - at
balance 1500 that propagated message contains neither 1500 nor 302000. -/
theorem C1_createTitle_preflight (balance : Nat) (mid : MidProtocol)
    (lookup : Nat → Option VerifyPrms) (landId metadataUrl : String)
    (h : balance < minRequired) :
    createTitle (.ok balance) mid lookup landId metadataUrl =
      (.error (rewriteCreateTitleError { msg := insufficientFundsMsg balance }), []) ∧
    preflightBalanceCheck (.ok balance) = .error { msg := insufficientFundsMsg balance } ∧
    strContains (insufficientFundsMsg balance) "Insufficient funds" = true ∧
    rewriteCreateTitleError { msg := insufficientFundsMsg 1500 } =
      { msg := walletInsufficientMsg } ∧
    strContains (insufficientFundsMsg 1500) "1500" = true ∧
    strContains (insufficientFundsMsg 1500) "302000" = true ∧
    strContains walletInsufficientMsg "1500" = false ∧
    strContains walletInsufficientMsg "302000" = false := by
  have hp := preflight_insufficient balance h
  refine ⟨?_, hp, insufficientFundsMsg_contains balance, ?_, ?_, ?_, ?_, ?_⟩
  · unfold createTitle
    rw [hp]
  · decide
  · decide
  · decide
  · decide
  · decide

/-- Witness for C1 at balance 1500: the pre-flight failure with no
protocol action performed. -/
theorem C1_createTitle_preflight_witness :
    createTitle (.ok 1500) { outcome := .ok 0, txId := "tx", actions := [] }
        (fun _ => none) "LR/2024/001" "ipfs://cid" =
      (.error (rewriteCreateTitleError { msg := insufficientFundsMsg 1500 }), []) :=
  (C1_createTitle_preflight 1500 { outcome := .ok 0, txId := "tx", actions := [] }
      (fun _ => none) "LR/2024/001" "ipfs://cid" (by decide)).1

/-- Counterexample to C1 as stated: at balance 1500 `createTitle` does fail
with an insufficient-funds error before any submission, but the error that
reaches the caller is the generic guidance message, which does not state
the exact shortfall - it contains neither the balance 1500, nor the
minimum 302000, nor the difference 300500. -/
theorem C1_createTitle_counterexample :
    createTitle (.ok 1500) { outcome := .ok 0, txId := "txid", actions := [] }
        (fun _ => none) "LR/2024/001" "ipfs://metadata" =
      (.error { msg := walletInsufficientMsg }, []) ∧
    strContains walletInsufficientMsg "Insufficient funds" = true ∧
    strContains walletInsufficientMsg "1500" = false ∧
    strContains walletInsufficientMsg "302000" = false ∧
    strContains walletInsufficientMsg "300500" = false :=
  ⟨rfl, by decide, by decide, by decide, by decide⟩

/-! ## Claim C2: read operations and throwing -/

/-- Counterexample to C2 as stated: two Ledger Client read operations do
throw to the caller.  `getAssetTransactions` rethrows a connection error
when the underlying failure is a fetch failure, and `getAssetInfo`
rethrows the final retry attempt's error. -/
theorem C2_readOps_counterexample :
    getAssetTransactions Nat (.error { msg := "Failed to fetch", errName := "Error" }) =
      .error { msg := indexerConnectMsg, errName := "Error" } ∧
    getAssetInfo Nat (fun _ => .error { msg := "request error", errName := "Error" }) =
      .error { msg := "request error", errName := "Error" } :=
  ⟨rfl, rfl⟩

/-- Claim C2 (corrected): `searchAssetsByUnitName`, `getAccountAssets` and
`getContractAssets` never throw - every underlying failure is caught and
the operation resolves to a list.  `getAssetTransactions` resolves on
success and on most failures returns the empty list, but rethrows a
connection error when the failure message includes `Failed to fetch` or
the error is a `TypeError`.  `getAssetInfo` rethrows the third attempt's
error whenever all three retry attempts fail. -/
theorem C2_readOps_amended (α : Type) :
    (∀ u, ∃ l, searchAssetsByUnitName α u = .ok l) ∧
    (∀ u, ∃ l, getAccountAssets α u = .ok l) ∧
    (∀ ai u, ∃ l, getContractAssets α ai u = .ok l) ∧
    (∀ v, getAssetTransactions α (.ok v) = .ok (v.getD [])) ∧
    (∀ e, (strContains e.msg "Failed to fetch" || e.errName == "TypeError") = false →
      getAssetTransactions α (.error e) = .ok []) ∧
    (∀ e, (strContains e.msg "Failed to fetch" || e.errName == "TypeError") = true →
      getAssetTransactions α (.error e) =
        .error { msg := indexerConnectMsg, errName := "Error" }) ∧
    (∀ (outcome : Nat → Except JsError α) (e₁ e₂ e₃ : JsError),
      outcome 1 = .error e₁ → outcome 2 = .error e₂ → outcome 3 = .error e₃ →
      getAssetInfo α outcome = .error e₃) := by
  refine ⟨?_, ?_, ?_, ?_, ?_, ?_, ?_⟩
  · intro u
    cases u <;> exact ⟨_, rfl⟩
  · intro u
    unfold getAccountAssets
    cases u with
    | ok assets => exact ⟨_, rfl⟩
    | error e =>
      by_cases hc :
          (strContains e.msg "status 404" && strContains e.msg "no accounts found for address")
            = true
      · exact ⟨[], by simp [hc]⟩
      · exact ⟨[], by simp [Bool.not_eq_true _ ▸ hc]⟩
  · intro ai u
    unfold getContractAssets
    cases ai with
    | error e => exact ⟨[], rfl⟩
    | ok _ =>
      obtain ⟨l, hl⟩ := by
        show ∃ l, getAccountAssets α u = .ok l
        unfold getAccountAssets
        cases u with
        | ok assets => exact ⟨_, rfl⟩
        | error e => cases hc : (strContains e.msg "status 404" &&
            strContains e.msg "no accounts found for address") <;> exact ⟨[], by simp [hc]⟩
      exact ⟨l, by simp [hl]⟩
  · intro v
    rfl
  · intro e he
    simp [getAssetTransactions, he]
  · intro e he
    simp [getAssetTransactions, he]
  · intro outcome e₁ e₂ e₃ h1 h2 h3
    unfold getAssetInfo
    simp [getAssetInfoLoop, h1, h2, h3]

/-- Witness for C2 (amended): a run all three of whose attempts fail
rethrows the third failure. -/
theorem C2_readOps_amended_witness :
    getAssetInfo Nat (fun i => .error { msg := "attempt " ++ toString i, errName := "Error" }) =
      .error { msg := "attempt 3", errName := "Error" } :=
  (C2_readOps_amended Nat).2.2.2.2.2.2
    (fun i => .error { msg := "attempt " ++ toString i, errName := "Error" })
    { msg := "attempt 1", errName := "Error" }
    { msg := "attempt 2", errName := "Error" }
    { msg := "attempt 3", errName := "Error" } rfl rfl rfl

/-! ## Claim C3: pending-verification path -/

/-- Claim C3 assessment: when the asset id has been extracted but
post-creation verification does not converge within the 3-attempt budget,
`createTitle` does NOT return the asset id - the verification tail throws
the enriched pending-verification error (status `PENDING_VERIFICATION`,
the asset id and transaction id attached), and the outer catch then
rewraps it into a plain `Failed to create title: ...` error, dropping the
structured fields.  Evaluated here at asset id 123 with a lookup that
never converges. -/
theorem C3_pendingVerification_throws :
    createTitle (.ok 500000)
        { outcome := .ok 123, txId := "TX123", actions := [.submitTransaction] }
        (fun _ => none) "LR/2024/001" "ipfs://cid" =
      (.error { msg := "Failed to create title: " ++ pendingVerificationMsg 123 "TX123" },
       [.submitTransaction]) ∧
    postCreateVerification (fun _ => none) "LR/2024/001" "ipfs://cid" "TX123" 123 =
      .error { msg := pendingVerificationMsg 123 "TX123",
               status := some "PENDING_VERIFICATION",
               errAssetId := some 123,
               errTxnId := some "TX123" } :=
  ⟨rfl, rfl⟩

/-! ## Claim C9: getAssetInfo never resolves to null -/

/-- Claim C9: for every per-attempt outcome, `getAssetInfo` never resolves
to `null`: every execution either returns the looked-up asset or throws,
because each attempt either returns, rethrows on the final attempt, or
continues the loop - so the trailing `return null` (the `.ok none` of the
fuel-0 case) is unreachable from 3 attempts of fuel. -/
theorem C9_getAssetInfo_never_null (α : Type) (outcome : Nat → Except JsError α) :
    (∃ a, getAssetInfo α outcome = .ok (some a)) ∨
    (∃ e, getAssetInfo α outcome = .error e) := by
  unfold getAssetInfo
  cases h1 : outcome 1 <;> cases h2 : outcome 2 <;> cases h3 : outcome 3 <;>
    simp [getAssetInfoLoop, h1, h2, h3]

end AlgorandService

end ArdhiChain
